import Mathlib

/-!
Shallow embedding of `mypyc/irbuild/nonlocalcontrol.py`: the nonlocal
control-flow lowering stack of the mypyc IR builder.  The Python module
defines a hierarchy of `NonlocalControl` frames (base, generator, loop,
try/finally, except-cleanup, finally-cleanup), each answering the three
operations `gen_break`, `gen_continue`, `gen_return` by emitting IR
operations through an `IRBuilder` collaborator.

The builder collaborator is modelled as a state (`Builder`) holding fresh
counters for basic blocks and registers plus an append-only trace of the
emission events the Python code performs.  A Python `assert False, msg`
(a crash of the lowering pass) is modelled as `Except.error msg`; the
recoverable `builder.error(msg, line)` call is an `Event.errorReport`
recorded in the trace.  Frames are a closed inductive type; the mutable
`ret_reg` field of `TryFinallyNonlocalControl` is threaded by having every
operation return the (possibly updated) frame.
-/

/-- Values (registers / IR operations used as operands) are identified by
fresh natural-number ids handed out by the builder. -/
abbrev Val := Nat

/-- Basic blocks are identified by fresh natural-number ids. -/
abbrev Block := Nat

/-- The branch kinds of `mypyc.ir.ops.Branch` used here (`Branch.IS_ERROR`;
`BOOL_EXPR` is listed for completeness of the imported interface). -/
inductive BranchKind where
  | isError
  | boolExpr
deriving DecidableEq, Repr

/-- The two primitive-op descriptions imported from
`mypyc.primitives.exc_ops` by `nonlocalcontrol.py`. -/
inductive PrimDesc where
  | set_stop_iteration_value
  | restore_exc_info_op
deriving DecidableEq, Repr

/-- One emission event performed through the `IRBuilder` collaborator.
Each constructor corresponds to one builder call or `builder.add(op)`
appearing in `nonlocalcontrol.py`.  `decRef` corresponds to
`mypyc.ir.ops.DecRef`; it is part of the IR but is never emitted by this
module (reference releases are inserted by the later reference-counting
pass), and is included so that its absence from traces can be stated. -/
inductive Event where
  | ret (v : Val)                                  -- builder.add(Return(value))
  | goto (target : Block)                          -- builder.add(Goto(block))
  | addAssign (reg : Val) (src : Val)              -- builder.add(Assign(reg, value))
  | assign (tgt : Val) (src : Val) (line : Int)    -- builder.assign(target, value, line)
  | loadInt (n : Int) (dest : Val)                 -- builder.add(LoadInt(n)), result dest
  | branch (v : Val) (tr fl : Block) (kind : BranchKind)  -- builder.add(Branch(v, tr, fl, kind))
  | unreachable                                    -- builder.add(Unreachable())
  | primitive (op : PrimDesc) (args : List Val) (line : Int)  -- builder.primitive_op
  | pushErrHandler (h : Option Block)              -- builder.builder.push_error_handler
  | popErrHandler                                  -- builder.builder.pop_error_handler
  | activate (b : Block)                           -- builder.activate_block
  | errorReport (msg : String) (line : Int)        -- builder.error(msg, line)
  | allocTemp (r : Val)                            -- builder.alloc_temp(...)
  | readTgt (tgt : Val) (res : Val)                -- builder.read(target), result res
  | decRef (v : Val)                               -- mypyc.ir.ops.DecRef (never emitted here)
deriving DecidableEq, Repr

/-- The `IRBuilder` collaborator state: fresh-id counters, the
`fn_info.generator_class.next_label_target` assignment target used by
`GeneratorNonlocalControl`, and the ordered trace of emitted events. -/
structure Builder where
  nextBlock : Block
  nextReg : Val
  next_label_target : Val
  trace : List Event
deriving DecidableEq, Repr

namespace Builder

/-- Append one event to the emission trace. -/
def emit (b : Builder) (e : Event) : Builder :=
  { b with trace := b.trace ++ [e] }

/-- `BasicBlock()`: allocate a fresh basic block id. -/
def newBlock (b : Builder) : Block × Builder :=
  (b.nextBlock, { b with nextBlock := b.nextBlock + 1 })

/-- `builder.add(LoadInt(n))`: emit a LoadInt and return it as a value. -/
def addLoadInt (b : Builder) (n : Int) : Val × Builder :=
  (b.nextReg,
   { b with nextReg := b.nextReg + 1,
            trace := b.trace ++ [Event.loadInt n b.nextReg] })

/-- `builder.alloc_temp(type)`: allocate a fresh temporary register. -/
def alloc_temp (b : Builder) : Val × Builder :=
  (b.nextReg,
   { b with nextReg := b.nextReg + 1,
            trace := b.trace ++ [Event.allocTemp b.nextReg] })

/-- `builder.read(target)`: read an assignment target into a value. -/
def read (b : Builder) (tgt : Val) : Val × Builder :=
  (b.nextReg,
   { b with nextReg := b.nextReg + 1,
            trace := b.trace ++ [Event.readTgt tgt b.nextReg] })

/-- `builder.goto_and_activate(block)`: emit a Goto and make `block` the
current emission target. -/
def goto_and_activate (b : Builder) (blk : Block) : Builder :=
  (b.emit (Event.goto blk)).emit (Event.activate blk)

end Builder

/-- The closed set of concrete `NonlocalControl` frame variants defined in
`nonlocalcontrol.py`.  `outer` references are embedded as sub-frames, so a
frame value is the whole chain down to the sentinel base frame.
`TryFinallyNonlocalControl.ret_reg` is the frame's mutable lazily
allocated pending-return register. -/
inductive NonlocalControl where
  | baseNonlocalControl
  | generatorNonlocalControl
  | loopNonlocalControl (outer : NonlocalControl)
      (continue_block break_block : Block)
  | tryFinallyNonlocalControl (target : Block) (ret_reg : Option Val)
  | exceptNonlocalControl (outer : NonlocalControl) (saved : Val)
  | finallyNonlocalControl (outer : NonlocalControl)
      (ret_reg : Option Val) (saved : Val)
deriving DecidableEq, Repr

open NonlocalControl Event

/-- `NO_TRACEBACK_LINE_NO` from `mypyc.ir.ops` (a sentinel line number
meaning: do not create a traceback entry for this operation). -/
def NO_TRACEBACK_LINE_NO : Int := -1

/-- `gen_cleanup` of the two concrete `CleanupNonlocalControl` subclasses.

`ExceptNonlocalControl.gen_cleanup`:
    builder.primitive_op(restore_exc_info_op, [builder.read(self.saved)], line)

`FinallyNonlocalControl.gen_cleanup`:
    if self.ret_reg:
        target = BasicBlock()
        builder.add(Branch(self.ret_reg, target, target, Branch.IS_ERROR))
        builder.activate_block(target)
    target, cleanup = BasicBlock(), BasicBlock()
    builder.add(Branch(self.saved, target, cleanup, Branch.IS_ERROR))
    builder.activate_block(cleanup)
    builder.primitive_op(restore_exc_info_op, [self.saved], line)
    builder.goto_and_activate(target)

Non-cleanup frames have no `gen_cleanup`; the catch-all arm is never used
by the dispatchers below. -/
def gen_cleanup : NonlocalControl → Builder → Int → Builder
  | exceptNonlocalControl _ saved, b, line =>
    let (v, b) := b.read saved
    b.emit (primitive PrimDesc.restore_exc_info_op [v] line)
  | finallyNonlocalControl _ ret_reg saved, b, line =>
    let b :=
      match ret_reg with
      | some r =>
        let (target, b) := b.newBlock
        let b := b.emit (branch r target target BranchKind.isError)
        b.emit (activate target)
      | none => b
    let (target, b) := b.newBlock
    let (cleanup, b) := b.newBlock
    let b := b.emit (branch saved target cleanup BranchKind.isError)
    let b := b.emit (activate cleanup)
    let b := b.emit (primitive PrimDesc.restore_exc_info_op [saved] line)
    b.goto_and_activate target
  | _, b, _ => b

/-- `gen_break` dispatched over the frame variants.
* `BaseNonlocalControl`: `assert False, "break outside of loop"` (crash).
* `GeneratorNonlocalControl`: inherited unchanged from the base class.
* `LoopNonlocalControl`: `builder.add(Goto(self.break_block))`.
* `TryFinallyNonlocalControl`: `builder.error("break inside try/finally
  block is unimplemented", line)`.
* cleanup frames (`CleanupNonlocalControl.gen_break`): `self.gen_cleanup(
  builder, line); self.outer.gen_break(builder, line)`. -/
def gen_break : NonlocalControl → Builder → Int → Except String (NonlocalControl × Builder)
  | baseNonlocalControl, _, _ => Except.error "break outside of loop"
  | generatorNonlocalControl, _, _ => Except.error "break outside of loop"
  | loopNonlocalControl outer cb bb, b, _ =>
    Except.ok (loopNonlocalControl outer cb bb, b.emit (goto bb))
  | tryFinallyNonlocalControl target ret_reg, b, line =>
    Except.ok (tryFinallyNonlocalControl target ret_reg,
      b.emit (errorReport "break inside try/finally block is unimplemented" line))
  | exceptNonlocalControl outer saved, b, line =>
    let b := gen_cleanup (exceptNonlocalControl outer saved) b line
    match gen_break outer b line with
    | Except.ok (outer2, b2) => Except.ok (exceptNonlocalControl outer2 saved, b2)
    | Except.error e => Except.error e
  | finallyNonlocalControl outer rr saved, b, line =>
    let b := gen_cleanup (finallyNonlocalControl outer rr saved) b line
    match gen_break outer b line with
    | Except.ok (outer2, b2) => Except.ok (finallyNonlocalControl outer2 rr saved, b2)
    | Except.error e => Except.error e

/-- `gen_continue` dispatched over the frame variants; same structure as
`gen_break` with the continue targets and messages. -/
def gen_continue : NonlocalControl → Builder → Int → Except String (NonlocalControl × Builder)
  | baseNonlocalControl, _, _ => Except.error "continue outside of loop"
  | generatorNonlocalControl, _, _ => Except.error "continue outside of loop"
  | loopNonlocalControl outer cb bb, b, _ =>
    Except.ok (loopNonlocalControl outer cb bb, b.emit (goto cb))
  | tryFinallyNonlocalControl target ret_reg, b, line =>
    Except.ok (tryFinallyNonlocalControl target ret_reg,
      b.emit (errorReport "continue inside try/finally block is unimplemented" line))
  | exceptNonlocalControl outer saved, b, line =>
    let b := gen_cleanup (exceptNonlocalControl outer saved) b line
    match gen_continue outer b line with
    | Except.ok (outer2, b2) => Except.ok (exceptNonlocalControl outer2 saved, b2)
    | Except.error e => Except.error e
  | finallyNonlocalControl outer rr saved, b, line =>
    let b := gen_cleanup (finallyNonlocalControl outer rr saved) b line
    match gen_continue outer b line with
    | Except.ok (outer2, b2) => Except.ok (finallyNonlocalControl outer2 rr saved, b2)
    | Except.error e => Except.error e

/-- `gen_return` dispatched over the frame variants.
* `BaseNonlocalControl`: `builder.add(Return(value))`.
* `GeneratorNonlocalControl`: the generator-return protocol (assign -1 to
  the next-label target, push a cleared error handler, open a fresh block,
  emit `set_stop_iteration_value(value)` with `NO_TRACEBACK_LINE_NO`, mark
  unreachable, pop the error handler).
* `LoopNonlocalControl`: `self.outer.gen_return(builder, value, line)`.
* `TryFinallyNonlocalControl`: lazily allocate `self.ret_reg`, assign
  `value` into it, `Goto(self.target)`.
* cleanup frames: `self.gen_cleanup(builder, line);
  self.outer.gen_return(builder, value, line)`. -/
def gen_return : NonlocalControl → Builder → Val → Int → Except String (NonlocalControl × Builder)
  | baseNonlocalControl, b, value, _ =>
    Except.ok (baseNonlocalControl, b.emit (ret value))
  | generatorNonlocalControl, b, value, line =>
    let tgt := b.next_label_target
    let (tmp, b) := b.addLoadInt (-1)
    let b := b.emit (assign tgt tmp line)
    let b := b.emit (pushErrHandler none)
    let (blk, b) := b.newBlock
    let b := b.goto_and_activate blk
    let b := b.emit (primitive PrimDesc.set_stop_iteration_value [value] NO_TRACEBACK_LINE_NO)
    let b := b.emit unreachable
    let b := b.emit popErrHandler
    Except.ok (generatorNonlocalControl, b)
  | loopNonlocalControl outer cb bb, b, value, line =>
    match gen_return outer b value line with
    | Except.ok (outer2, b2) => Except.ok (loopNonlocalControl outer2 cb bb, b2)
    | Except.error e => Except.error e
  | tryFinallyNonlocalControl target ret_reg, b, value, _ =>
    let (r, b) :=
      match ret_reg with
      | none => b.alloc_temp
      | some r => (r, b)
    let b := b.emit (addAssign r value)
    let b := b.emit (goto target)
    Except.ok (tryFinallyNonlocalControl target (some r), b)
  | exceptNonlocalControl outer saved, b, value, line =>
    let b := gen_cleanup (exceptNonlocalControl outer saved) b line
    match gen_return outer b value line with
    | Except.ok (outer2, b2) => Except.ok (exceptNonlocalControl outer2 saved, b2)
    | Except.error e => Except.error e
  | finallyNonlocalControl outer rr saved, b, value, line =>
    let b := gen_cleanup (finallyNonlocalControl outer rr saved) b line
    match gen_return outer b value line with
    | Except.ok (outer2, b2) => Except.ok (finallyNonlocalControl outer2 rr saved, b2)
    | Except.error e => Except.error e

/-! ## Derived notions used by the theorems -/

/-- A concrete builder state with fresh counters at zero and an empty
emission trace. -/
def builder0 : Builder :=
  { nextBlock := 0, nextReg := 0, next_label_target := 0, trace := [] }

/-- The data of one cleanup wrapper (the two concrete
`CleanupNonlocalControl` subclasses), without its `outer` reference. -/
inductive CleanupKind where
  | exceptK (saved : Val)
  | finallyK (ret_reg : Option Val) (saved : Val)
deriving DecidableEq, Repr

/-- Wrap an inner frame in one cleanup wrapper. -/
def wrapCleanup : CleanupKind → NonlocalControl → NonlocalControl
  | CleanupKind.exceptK s, o => exceptNonlocalControl o s
  | CleanupKind.finallyK rr s, o => finallyNonlocalControl o rr s

/-- Stack a list of cleanup wrappers (head innermost) over an inner frame. -/
def stackCleanups : List CleanupKind → NonlocalControl → NonlocalControl
  | [], inner => inner
  | k :: ks, inner => wrapCleanup k (stackCleanups ks inner)

/-- The builder effect of one wrapper's `gen_cleanup` (which never inspects
its `outer` reference). -/
def cleanupStep (k : CleanupKind) (b : Builder) (line : Int) : Builder :=
  gen_cleanup (wrapCleanup k baseNonlocalControl) b line

/-- Run the cleanups of a list of wrappers in list (innermost-first) order. -/
def runCleanups : List CleanupKind → Builder → Int → Builder
  | [], b, _ => b
  | k :: ks, b, line => runCleanups ks (cleanupStep k b line) line

/-- Test for a reference-release event. -/
def isDecRef : Event → Bool
  | Event.decRef _ => true
  | _ => false

/-- Test for a conditional branch event (of any kind, on any value). -/
def isBranch : Event → Bool
  | Event.branch _ _ _ _ => true
  | _ => false

/-- Test for a conditional branch event whose scrutinee is `v`. -/
def isBranchOn (v : Val) : Event → Bool
  | Event.branch w _ _ _ => w == v
  | _ => false

/-! ## Helper lemmas -/

lemma gen_cleanup_wrap (k : CleanupKind) (o : NonlocalControl) (b : Builder) (l : Int) :
    gen_cleanup (wrapCleanup k o) b l = cleanupStep k b l := by
  cases k <;> rfl

lemma gen_break_wrap (k : CleanupKind) (o : NonlocalControl) (b : Builder) (l : Int) :
    gen_break (wrapCleanup k o) b l =
      Except.map (fun p => (wrapCleanup k p.1, p.2)) (gen_break o (cleanupStep k b l) l) := by
  cases k with
  | exceptK s =>
    simp only [wrapCleanup, gen_break, cleanupStep, gen_cleanup]
    cases h : gen_break o ((b.read s).2.emit (primitive PrimDesc.restore_exc_info_op [(b.read s).1] l)) l with
    | ok p => cases p; simp [h, Except.map]
    | error e => simp [h, Except.map]
  | finallyK rr s =>
    simp only [wrapCleanup, gen_break, cleanupStep]
    cases h : gen_break o (gen_cleanup (finallyNonlocalControl baseNonlocalControl rr s) b l) l with
    | ok p =>
      cases p
      simp only [gen_cleanup] at h ⊢
      simp [h, Except.map]
    | error e =>
      simp only [gen_cleanup] at h ⊢
      simp [h, Except.map]

lemma gen_continue_wrap (k : CleanupKind) (o : NonlocalControl) (b : Builder) (l : Int) :
    gen_continue (wrapCleanup k o) b l =
      Except.map (fun p => (wrapCleanup k p.1, p.2)) (gen_continue o (cleanupStep k b l) l) := by
  cases k with
  | exceptK s =>
    simp only [wrapCleanup, gen_continue, cleanupStep, gen_cleanup]
    cases h : gen_continue o ((b.read s).2.emit (primitive PrimDesc.restore_exc_info_op [(b.read s).1] l)) l with
    | ok p => cases p; simp [h, Except.map]
    | error e => simp [h, Except.map]
  | finallyK rr s =>
    simp only [wrapCleanup, gen_continue, cleanupStep]
    cases h : gen_continue o (gen_cleanup (finallyNonlocalControl baseNonlocalControl rr s) b l) l with
    | ok p =>
      cases p
      simp only [gen_cleanup] at h ⊢
      simp [h, Except.map]
    | error e =>
      simp only [gen_cleanup] at h ⊢
      simp [h, Except.map]

lemma gen_return_wrap (k : CleanupKind) (o : NonlocalControl) (b : Builder) (v : Val) (l : Int) :
    gen_return (wrapCleanup k o) b v l =
      Except.map (fun p => (wrapCleanup k p.1, p.2)) (gen_return o (cleanupStep k b l) v l) := by
  cases k with
  | exceptK s =>
    simp only [wrapCleanup, gen_return, cleanupStep, gen_cleanup]
    cases h : gen_return o ((b.read s).2.emit (primitive PrimDesc.restore_exc_info_op [(b.read s).1] l)) v l with
    | ok p => cases p; simp [h, Except.map]
    | error e => simp [h, Except.map]
  | finallyK rr s =>
    simp only [wrapCleanup, gen_return, cleanupStep]
    cases h : gen_return o (gen_cleanup (finallyNonlocalControl baseNonlocalControl rr s) b l) v l with
    | ok p =>
      cases p
      simp only [gen_cleanup] at h ⊢
      simp [h, Except.map]
    | error e =>
      simp only [gen_cleanup] at h ⊢
      simp [h, Except.map]

lemma gen_return_stack (ks : List CleanupKind) (inner : NonlocalControl) (b : Builder)
    (v : Val) (l : Int) :
    gen_return (stackCleanups ks inner) b v l =
      Except.map (fun p => (stackCleanups ks p.1, p.2))
        (gen_return inner (runCleanups ks b l) v l) := by
  induction ks generalizing b with
  | nil =>
    cases h : gen_return inner b v l with
    | ok p => cases p; simp [stackCleanups, runCleanups, h, Except.map]
    | error e => simp [stackCleanups, runCleanups, h, Except.map]
  | cons k ks ih =>
    simp only [stackCleanups, runCleanups]
    rw [gen_return_wrap, ih]
    cases h : gen_return inner (runCleanups ks (cleanupStep k b l) l) v l with
    | ok p => cases p; simp [h, Except.map, stackCleanups]
    | error e => simp [h, Except.map]

/-! ## Claim theorems -/

/-- Claim C1: every cleanup wrapper (`ExceptNonlocalControl` /
`FinallyNonlocalControl`, i.e. the concrete `CleanupNonlocalControl`
subclasses) first emits its own cleanup code and then invokes the same
operation (`gen_break`, `gen_continue`, `gen_return`) on its outer frame;
consequently, for any list of cleanup wrappers (head innermost) stacked
over the base frame, `gen_return` emits each wrapper's cleanup exactly
once, in innermost-first order (`runCleanups` folds `cleanupStep` in list
order), followed by the base frame's own `Return(value)` emission. -/
theorem C1_cleanup_chain_order :
    (∀ (k : CleanupKind) (o : NonlocalControl) (b : Builder) (l : Int),
      gen_break (wrapCleanup k o) b l =
        Except.map (fun p => (wrapCleanup k p.1, p.2)) (gen_break o (cleanupStep k b l) l)) ∧
    (∀ (k : CleanupKind) (o : NonlocalControl) (b : Builder) (l : Int),
      gen_continue (wrapCleanup k o) b l =
        Except.map (fun p => (wrapCleanup k p.1, p.2)) (gen_continue o (cleanupStep k b l) l)) ∧
    (∀ (k : CleanupKind) (o : NonlocalControl) (b : Builder) (v : Val) (l : Int),
      gen_return (wrapCleanup k o) b v l =
        Except.map (fun p => (wrapCleanup k p.1, p.2)) (gen_return o (cleanupStep k b l) v l)) ∧
    (∀ (ks : List CleanupKind) (b : Builder) (v : Val) (l : Int),
      gen_return (stackCleanups ks baseNonlocalControl) b v l =
        Except.ok (stackCleanups ks baseNonlocalControl,
          (runCleanups ks b l).emit (ret v))) := by
  refine ⟨gen_break_wrap, gen_continue_wrap, gen_return_wrap, ?_⟩
  intro ks b v l
  rw [gen_return_stack]
  simp [gen_return, Except.map]

/-- Claim C2 counterexample: on the sentinel base frame, `gen_break` and
`gen_continue` do not report a recoverable error through the builder
(which would be an `Except.ok` result whose trace gained an
`Event.errorReport`); they are Python `assert False` statements, modelled
as `Except.error` — a crash of the lowering pass.  Shown at the concrete
builder `builder0` and line 1: the result is `Except.error`, so no builder
state (and hence no reported-error event) results at all. -/
theorem C2_counterexample :
    gen_break baseNonlocalControl builder0 1 = Except.error "break outside of loop" ∧
    gen_continue baseNonlocalControl builder0 1 = Except.error "continue outside of loop" :=
  ⟨rfl, rfl⟩

/-- Claim C2 (amended): for the sentinel base frame, `gen_break` and
`gen_continue` fail with assertion failures (crashes of the lowering pass,
messages "break outside of loop" / "continue outside of loop"), not with a
recoverable builder error report, while `gen_return value` emits a direct
function `Return(value)`. -/
theorem C2_base_frame_behavior (b : Builder) (v : Val) (l : Int) :
    gen_break baseNonlocalControl b l = Except.error "break outside of loop" ∧
    gen_continue baseNonlocalControl b l = Except.error "continue outside of loop" ∧
    gen_return baseNonlocalControl b v l =
      Except.ok (baseNonlocalControl, b.emit (ret v)) :=
  ⟨rfl, rfl, rfl⟩

/-- Claim C3: `GeneratorNonlocalControl.gen_return value` emits, in order:
(1) a `LoadInt (-1)` and its assignment (the out-of-range resume label)
into the generator's `next_label_target`; (2) a push of a cleared (`none`)
error-handler context followed by opening (goto-and-activate) a fresh
basic block; (3) the `set_stop_iteration_value` primitive carrying `value`
at `NO_TRACEBACK_LINE_NO` (no traceback-frame construction); (4) an
`Unreachable` marker and the pop restoring the previous error-handler
context. -/
theorem C3_generator_return_protocol (b : Builder) (v : Val) (l : Int) :
    gen_return generatorNonlocalControl b v l =
      Except.ok (generatorNonlocalControl,
        { b with nextBlock := b.nextBlock + 1,
                 nextReg := b.nextReg + 1,
                 trace := b.trace ++
                   [loadInt (-1) b.nextReg,
                    assign b.next_label_target b.nextReg l,
                    pushErrHandler none,
                    goto b.nextBlock,
                    activate b.nextBlock,
                    primitive PrimDesc.set_stop_iteration_value [v] NO_TRACEBACK_LINE_NO,
                    unreachable,
                    popErrHandler] }) := by
  simp [gen_return, Builder.emit, Builder.addLoadInt, Builder.newBlock,
        Builder.goto_and_activate]

/-- Claim C4: `TryFinallyNonlocalControl.gen_return` allocates the
pending-return temporary only when it is absent: on a frame with
`ret_reg = none` it allocates exactly one fresh temporary (a single
`allocTemp` event), records it in the frame, assigns `value` into it and
jumps to the finally target; on a frame whose slot is already `some r`
(every later call) it emits no allocation, reuses `r`, assigns and jumps.
Neither case emits a direct function `Return`. -/
theorem C4_tryFinally_return_lazy_alloc (tgt : Block) (b : Builder) (v v2 : Val)
    (l l2 : Int) (r : Val) :
    gen_return (tryFinallyNonlocalControl tgt none) b v l =
      Except.ok (tryFinallyNonlocalControl tgt (some b.nextReg),
        { b with nextReg := b.nextReg + 1,
                 trace := b.trace ++
                   [allocTemp b.nextReg, addAssign b.nextReg v, goto tgt] }) ∧
    gen_return (tryFinallyNonlocalControl tgt (some r)) b v2 l2 =
      Except.ok (tryFinallyNonlocalControl tgt (some r),
        { b with trace := b.trace ++ [addAssign r v2, goto tgt] }) := by
  constructor <;>
    simp [gen_return, Builder.emit, Builder.alloc_temp]

/-- Claim C5 counterexample: `FinallyNonlocalControl.gen_cleanup` with a
pending-return slot present does not emit any reference-release in the
not-error arm — it emits no release at all (the trace contains no `decRef`
event), and the slot branch's two arms are the very same block (here block
0), not a release arm and a skip arm.  Shown concretely on a frame with
slot register 5 and saved-state register 7 over `builder0` at line 3. -/
theorem C5_counterexample :
    ((gen_cleanup (finallyNonlocalControl baseNonlocalControl (some 5) 7) builder0 3).trace.filter
      isDecRef) = [] ∧
    (gen_cleanup (finallyNonlocalControl baseNonlocalControl (some 5) 7) builder0 3).trace =
      [branch 5 0 0 BranchKind.isError,
       activate 0,
       branch 7 1 2 BranchKind.isError,
       activate 2,
       primitive PrimDesc.restore_exc_info_op [7] 3,
       goto 1,
       activate 1] :=
  ⟨rfl, rfl⟩

/-- Claim C5 (amended): `FinallyNonlocalControl.gen_cleanup`, when a
pending-return slot `r` is present, first emits a branch on `r`'s is-error
sentinel whose two arms both target the same immediately activated
continuation block — emitting no reference-release itself (no `decRef`
event is added; the branch only lets the later reference-counting pass
insert the release) — and then, unconditionally, emits the
saved-exception-state restore: a branch on the saved slot's is-error
sentinel whose error arm skips straight to the continuation block and
whose not-error arm emits the restore call before falling through to that
same continuation block. -/
theorem C5_finally_cleanup_structure (o : NonlocalControl) (r saved : Val) (b : Builder)
    (l : Int) :
    gen_cleanup (finallyNonlocalControl o (some r) saved) b l =
      { b with nextBlock := b.nextBlock + 3,
               trace := b.trace ++
                 [branch r b.nextBlock b.nextBlock BranchKind.isError,
                  activate b.nextBlock,
                  branch saved (b.nextBlock + 1) (b.nextBlock + 2) BranchKind.isError,
                  activate (b.nextBlock + 2),
                  primitive PrimDesc.restore_exc_info_op [saved] l,
                  goto (b.nextBlock + 1),
                  activate (b.nextBlock + 1)] } ∧
    (gen_cleanup (finallyNonlocalControl o (some r) saved) b l).trace.filter isDecRef =
      b.trace.filter isDecRef := by
  have h : gen_cleanup (finallyNonlocalControl o (some r) saved) b l =
      { b with nextBlock := b.nextBlock + 3,
               trace := b.trace ++
                 [branch r b.nextBlock b.nextBlock BranchKind.isError,
                  activate b.nextBlock,
                  branch saved (b.nextBlock + 1) (b.nextBlock + 2) BranchKind.isError,
                  activate (b.nextBlock + 2),
                  primitive PrimDesc.restore_exc_info_op [saved] l,
                  goto (b.nextBlock + 1),
                  activate (b.nextBlock + 1)] } := by
    simp [gen_cleanup, Builder.emit, Builder.newBlock, Builder.goto_and_activate]
  refine ⟨h, ?_⟩
  rw [h]
  simp [List.filter_append, isDecRef]

/-- Claim C6: `FinallyNonlocalControl.gen_cleanup` over a builder with an
empty trace: with `ret_reg = none` it emits exactly one conditional branch
in total (the saved-exception-state restore branch), hence no
reference-release branch on any pending-return slot; with `ret_reg = some
r` (and `r` a register distinct from the saved-state register) it emits
exactly one conditional branch whose scrutinee is `r`, and no `decRef` of
`r` occurs before the first branch on `r` (so the branch precedes any
release of the slot — here vacuously, as the function emits no release
itself). -/
theorem C6_finally_cleanup_release_branch (o : NonlocalControl) (r saved : Val)
    (b : Builder) (l : Int) (hb : b.trace = []) (hrs : r ≠ saved) :
    (gen_cleanup (finallyNonlocalControl o none saved) b l).trace.countP isBranch = 1 ∧
    (gen_cleanup (finallyNonlocalControl o (some r) saved) b l).trace.countP
      (isBranchOn r) = 1 ∧
    ((gen_cleanup (finallyNonlocalControl o (some r) saved) b l).trace.takeWhile
      (fun e => ! isBranchOn r e)).filter isDecRef = [] := by
  have hsr : (saved == r) = false := by
    simp only [beq_eq_false_iff_ne, ne_eq]
    exact fun hsr' => hrs hsr'.symm
  refine ⟨?_, ?_, ?_⟩
  · simp [gen_cleanup, Builder.emit, Builder.newBlock, Builder.goto_and_activate, hb,
      List.countP_cons, isBranch]
  · simp [gen_cleanup, Builder.emit, Builder.newBlock, Builder.goto_and_activate, hb,
      List.countP_cons, isBranchOn, hsr]
  · simp [gen_cleanup, Builder.emit, Builder.newBlock, Builder.goto_and_activate, hb,
      List.takeWhile, isBranchOn, isDecRef]

/-- Claim C7: a loop frame emits exactly one unconditional jump to its
break target on `gen_break`, exactly one unconditional jump to its
continue target on `gen_continue`, and delegates `gen_return` unchanged
(same builder state, value and line, independent of both targets) to its
outer frame. -/
theorem C7_loop_frame (o : NonlocalControl) (cb bb : Block) (b : Builder) (v : Val)
    (l : Int) :
    gen_break (loopNonlocalControl o cb bb) b l =
      Except.ok (loopNonlocalControl o cb bb, b.emit (goto bb)) ∧
    gen_continue (loopNonlocalControl o cb bb) b l =
      Except.ok (loopNonlocalControl o cb bb, b.emit (goto cb)) ∧
    gen_return (loopNonlocalControl o cb bb) b v l =
      Except.map (fun p => (loopNonlocalControl p.1 cb bb, p.2)) (gen_return o b v l) := by
  refine ⟨rfl, rfl, ?_⟩
  cases h : gen_return o b v l with
  | ok p => cases p; simp [gen_return, h, Except.map]
  | error e => simp [gen_return, h, Except.map]

/-- Claim C8 counterexample: the messages `TryFinallyNonlocalControl`
actually reports through `builder.error` are "break inside try/finally
block is unimplemented" and "continue inside try/finally block is
unimplemented" — not the claimed "break/continue inside try/finally is
unsupported".  Shown concretely on a frame with finally target 0 over
`builder0` at line 4. -/
theorem C8_counterexample :
    gen_break (tryFinallyNonlocalControl 0 none) builder0 4 =
      Except.ok (tryFinallyNonlocalControl 0 none,
        builder0.emit (errorReport "break inside try/finally block is unimplemented" 4)) ∧
    gen_continue (tryFinallyNonlocalControl 0 none) builder0 4 =
      Except.ok (tryFinallyNonlocalControl 0 none,
        builder0.emit (errorReport "continue inside try/finally block is unimplemented" 4)) ∧
    "break inside try/finally block is unimplemented" ≠
      "break/continue inside try/finally is unsupported" ∧
    "continue inside try/finally block is unimplemented" ≠
      "break/continue inside try/finally is unsupported" :=
  ⟨rfl, rfl, by decide, by decide⟩

/-- Claim C8 (amended): for every `TryFinallyNonlocalControl` frame,
`gen_break` and `gen_continue` each report, via the builder's recoverable
error call with the source position, the message "break inside try/finally
block is unimplemented" (resp. "continue inside try/finally block is
unimplemented"), emit nothing else (in particular no jump), and leave the
frame — including its pending-return slot — untouched. -/
theorem C8_tryFinally_break_continue_error (tgt : Block) (rr : Option Val)
    (b : Builder) (l : Int) :
    gen_break (tryFinallyNonlocalControl tgt rr) b l =
      Except.ok (tryFinallyNonlocalControl tgt rr,
        b.emit (errorReport "break inside try/finally block is unimplemented" l)) ∧
    gen_continue (tryFinallyNonlocalControl tgt rr) b l =
      Except.ok (tryFinallyNonlocalControl tgt rr,
        b.emit (errorReport "continue inside try/finally block is unimplemented" l)) :=
  ⟨rfl, rfl⟩

/-- Claim C9: `ExceptNonlocalControl.gen_cleanup` emits exactly one call
to the restore-exception-state primitive, passing the value just read from
`saved`; the frame's `saved` field is set only at construction and each of
the three exit operations through the frame runs this cleanup exactly once
(reading `saved` exactly once) before delegating to the outer frame with
`saved` preserved in the resulting frame. -/
theorem C9_except_cleanup_restore (o : NonlocalControl) (saved : Val) (b : Builder)
    (v : Val) (l : Int) :
    gen_cleanup (exceptNonlocalControl o saved) b l =
      { b with nextReg := b.nextReg + 1,
               trace := b.trace ++
                 [readTgt saved b.nextReg,
                  primitive PrimDesc.restore_exc_info_op [b.nextReg] l] } ∧
    gen_break (exceptNonlocalControl o saved) b l =
      Except.map (fun p => (exceptNonlocalControl p.1 saved, p.2))
        (gen_break o (gen_cleanup (exceptNonlocalControl o saved) b l) l) ∧
    gen_continue (exceptNonlocalControl o saved) b l =
      Except.map (fun p => (exceptNonlocalControl p.1 saved, p.2))
        (gen_continue o (gen_cleanup (exceptNonlocalControl o saved) b l) l) ∧
    gen_return (exceptNonlocalControl o saved) b v l =
      Except.map (fun p => (exceptNonlocalControl p.1 saved, p.2))
        (gen_return o (gen_cleanup (exceptNonlocalControl o saved) b l) v l) := by
  refine ⟨?_, ?_, ?_, ?_⟩
  · simp [gen_cleanup, Builder.read, Builder.emit]
  · have h := gen_break_wrap (CleanupKind.exceptK saved) o b l
    simpa [wrapCleanup, cleanupStep, gen_cleanup] using h
  · have h := gen_continue_wrap (CleanupKind.exceptK saved) o b l
    simpa [wrapCleanup, cleanupStep, gen_cleanup] using h
  · have h := gen_return_wrap (CleanupKind.exceptK saved) o b v l
    simpa [wrapCleanup, cleanupStep, gen_cleanup] using h

/-- Claim C10: `GeneratorNonlocalControl` overrides only `gen_return`; its
`gen_break` and `gen_continue` behave exactly as those inherited from
`BaseNonlocalControl` — an assertion failure (crash) with message "break
outside of loop" / "continue outside of loop" when break or continue
reaches the generator's base frame. -/
theorem C10_generator_inherited_break_continue (b : Builder) (l : Int) :
    gen_break generatorNonlocalControl b l = gen_break baseNonlocalControl b l ∧
    gen_continue generatorNonlocalControl b l = gen_continue baseNonlocalControl b l ∧
    gen_break generatorNonlocalControl b l = Except.error "break outside of loop" ∧
    gen_continue generatorNonlocalControl b l = Except.error "continue outside of loop" :=
  ⟨rfl, rfl, rfl, rfl⟩

/-- Witness for claim C6: the theorem instantiated at the concrete frame
with slot register 5 and saved register 7 over `builder0` at line 3, with
both hypotheses discharged by evaluation. -/
theorem C6_finally_cleanup_release_branch_witness :
    builder0.trace = [] ∧ (5 : Val) ≠ 7 ∧
    ((gen_cleanup (finallyNonlocalControl baseNonlocalControl none 7) builder0 3).trace.countP
        isBranch = 1 ∧
      (gen_cleanup (finallyNonlocalControl baseNonlocalControl (some 5) 7) builder0 3).trace.countP
        (isBranchOn 5) = 1 ∧
      ((gen_cleanup (finallyNonlocalControl baseNonlocalControl (some 5) 7) builder0 3).trace.takeWhile
        (fun e => ! isBranchOn 5 e)).filter isDecRef = []) :=
  ⟨rfl, by decide,
    C6_finally_cleanup_release_branch baseNonlocalControl 5 7 builder0 3 rfl (by decide)⟩
